import Mathlib

/-!
Verification of the Etherscan normal-transactions extractor
(`src/component.py`) against its natural-language specification.

Strings from the Python side are modelled as lists of Unicode code points
(`PyStr := List Nat`); every string handled by the claims (hex addresses,
CSV field names and values, configuration keys) is ASCII, where a code
point coincides with the UTF-8 byte.
-/

/-- Python strings, as lists of Unicode code points. -/
abbrev PyStr := List Nat

/-- Code points of a Lean string literal; used to write concrete Python strings. -/
def strBytes (s : String) : PyStr := s.data.map Char.toNat

/-- Python `str.lower` on one ASCII code point (A-Z maps to a-z, others fixed).
All strings reaching this function in the component are ASCII hex addresses. -/
def pyLowerByte (c : Nat) : Nat := if 65 ≤ c ∧ c ≤ 90 then c + 32 else c

/-- Python `str.upper` on one ASCII code point (a-z maps to A-Z, others fixed). -/
def pyUpperByte (c : Nat) : Nat := if 97 ≤ c ∧ c ≤ 122 then c - 32 else c

/-- Python `str.lower` on an ASCII string. -/
def pyLower (s : PyStr) : PyStr := s.map pyLowerByte

/-! ### Keccak-256 (the hash underlying `eth_utils` EIP-55 checksumming)

Lanes are 64-bit words carried as `Nat` values below `2 ^ 64`; the state is a
list of 25 lanes indexed by `x + 5 * y`. -/

/-- Left-rotation of a 64-bit lane. -/
def rotl64 (n k : Nat) : Nat :=
  ((n <<< k) &&& 0xFFFFFFFFFFFFFFFF) ||| (n >>> (64 - k))

/-- Lane of the Keccak state at column x, row y. -/
def getLane (s : List Nat) (x y : Nat) : Nat := s.getD (x + 5 * y) 0

/-- Rho-offset generation walk: starting from lane (1, 0) and repeatedly
mapping (x, y) to (y, (2x + 3y) mod 5), the t-th visited lane receives the
rotation offset (t + 1)(t + 2) / 2 mod 64. Each pair is (lane index, offset). -/
def rhoPairs : List (Nat × Nat) :=
  (((List.range 24).foldl
    (fun st t =>
      ((st.1.2, (2 * st.1.1 + 3 * st.1.2) % 5),
        (st.1.1 + 5 * st.1.2, ((t + 1) * (t + 2) / 2) % 64) :: st.2))
    ((1, 0), []))).2

/-- Keccak rho-step rotation offsets, indexed by `x + 5 * y`; lane (0, 0) is
not visited by the walk and keeps offset 0. -/
def rotOffsets : List Nat :=
  (List.range 25).map
    (fun i => ((rhoPairs.find? (fun p => p.1 == i)).map Prod.snd).getD 0)

/-- The t-step state of the degree-8 LFSR (polynomial x^8 + x^6 + x^5 + x^4
+ 1) generating the Keccak round-constant bits. -/
def rcLfsr (t : Nat) : Nat :=
  (List.range t).foldl
    (fun r _ =>
      let r2 := r <<< 1
      if r2 &&& 256 ≠ 0 then (r2 ^^^ 0x171) &&& 0xFF else r2)
    1

/-- Keccak round constants for the 24 rounds of Keccak-f[1600]: round i sets
bit 2^j - 1 of the constant to the LFSR bit at step 7i + j, for j < 7. -/
def keccakRC : List Nat :=
  (List.range 24).map
    (fun i =>
      (List.range 7).foldl
        (fun acc j => acc + (rcLfsr (7 * i + j) &&& 1) * 2 ^ (2 ^ j - 1)) 0)

/-- Keccak theta step. -/
def thetaStep (s : List Nat) : List Nat :=
  let C := fun x => getLane s x 0 ^^^ getLane s x 1 ^^^ getLane s x 2 ^^^
    getLane s x 3 ^^^ getLane s x 4
  let D := fun x => C ((x + 4) % 5) ^^^ rotl64 (C ((x + 1) % 5)) 1
  List.ofFn (fun i : Fin 25 => s.getD i.val 0 ^^^ D (i.val % 5))

/-- Keccak rho and pi steps combined: the lane at destination (xp, yp) comes
from source (x, y) with x = (xp + 3 yp) mod 5, y = xp, rotated by its offset. -/
def rhoPiStep (s : List Nat) : List Nat :=
  List.ofFn (fun i : Fin 25 =>
    let xp := i.val % 5
    let yp := i.val / 5
    let x := (xp + 3 * yp) % 5
    let y := xp
    rotl64 (getLane s x y) (rotOffsets.getD (x + 5 * y) 0))

/-- Keccak chi step. -/
def chiStep (s : List Nat) : List Nat :=
  List.ofFn (fun i : Fin 25 =>
    let x := i.val % 5
    let y := i.val / 5
    getLane s x y ^^^
      ((getLane s ((x + 1) % 5) y ^^^ 0xFFFFFFFFFFFFFFFF) &&& getLane s ((x + 2) % 5) y))

/-- Keccak iota step: xor the round constant into lane (0, 0). -/
def iotaStep (s : List Nat) (rc : Nat) : List Nat :=
  List.ofFn (fun i : Fin 25 => if i.val = 0 then s.getD 0 0 ^^^ rc else s.getD i.val 0)

/-- One round of Keccak-f[1600]. -/
def keccakRound (s : List Nat) (rc : Nat) : List Nat :=
  iotaStep (chiStep (rhoPiStep (thetaStep s))) rc

/-- The Keccak-f[1600] permutation: 24 rounds. -/
def keccakF (s : List Nat) : List Nat := keccakRC.foldl keccakRound s

/-- Little-endian interpretation of a byte list as a natural number. -/
def leNat (bs : List Nat) : Nat := bs.foldr (fun b acc => b + 256 * acc) 0

/-- The 17 rate lanes of one 136-byte block, little-endian within each lane. -/
def bytesToLanes (block : List Nat) : List Nat :=
  List.ofFn (fun j : Fin 17 => leNat ((block.drop (8 * j.val)).take 8))

/-- Xor a block's rate lanes into the state (capacity lanes are unchanged). -/
def xorIntoState (s lanes : List Nat) : List Nat :=
  List.ofFn (fun i : Fin 25 => s.getD i.val 0 ^^^ lanes.getD i.val 0)

/-- Keccak multi-rate padding (pad10*1) to a multiple of the 136-byte rate. -/
def keccakPad (m : List Nat) : List Nat :=
  let q := 136 - m.length % 136
  if q = 1 then m ++ [0x81]
  else m ++ 0x01 :: (List.replicate (q - 2) 0 ++ [0x80])

/-- Absorb n blocks of 136 bytes into the state. -/
def absorbBlocks (s : List Nat) (bs : List Nat) : Nat → List Nat
  | 0 => s
  | n + 1 => absorbBlocks (keccakF (xorIntoState s (bytesToLanes (bs.take 136)))) (bs.drop 136) n

/-- First 32 bytes of the state, read little-endian from the first four lanes. -/
def squeeze256 (s : List Nat) : List Nat :=
  List.ofFn (fun i : Fin 32 => (s.getD (i.val / 8) 0 >>> (8 * (i.val % 8))) % 256)

/-- Keccak-256 digest (32 bytes) of a byte string. -/
def keccak256 (m : List Nat) : List Nat :=
  let p := keccakPad m
  squeeze256 (absorbBlocks (List.replicate 25 0) p (p.length / 136))

/-! ### The `eth_utils` address routines used by `Component.to_checksum`

`src/component.py` lines 43-52 call `eth_utils.is_checksum_address` and
`eth_utils.to_checksum_address`; these third-party functions are embedded
here from their behaviour (EIP-55 checksum casing over Keccak-256). -/

/-- Python-side exceptions distinguished by the component and its entrypoint. -/
inductive PyErr where
  /-- `keboola.component.exceptions.UserException`, caught at the entrypoint. -/
  | userException (msg : String)
  /-- `ValueError`, e.g. from `eth_utils` on a malformed address or from `csv`. -/
  | valueError (msg : String)
  /-- Any other exception (TypeError, network failure, endpoint error, ...). -/
  | error (msg : String)
deriving DecidableEq, Repr

/-- Whether a code point is an ASCII hex digit (0-9, a-f, A-F). -/
def isHexDigitByte (c : Nat) : Bool :=
  (48 ≤ c && c ≤ 57) || (97 ≤ c && c ≤ 102) || (65 ≤ c && c ≤ 70)

/-- The `eth_utils.is_hex_address` check: a 0x-prefixed (also 0X) string of
exactly 40 hex digits. -/
def is_hex_address (s : PyStr) : Bool :=
  match s with
  | c0 :: c1 :: rest =>
      c0 = 48 && (c1 = 120 || c1 = 88) && rest.length = 40 && rest.all isHexDigitByte
  | _ => false

/-- The `eth_utils.to_normalized_address` routine: lowercase the string and
require it to be a hex address, raising `ValueError` otherwise. -/
def to_normalized_address (s : PyStr) : Except PyErr PyStr :=
  let h := pyLower s
  if is_hex_address h then .ok h
  else .error (.valueError "Unknown format, expected a hex address")

/-- EIP-55 checksum casing of a normalized (lowercase, 0x-prefixed) address:
uppercase the i-th hex digit exactly when the i-th nibble of the Keccak-256
digest of the unprefixed lowercase address exceeds 7. `eth_utils` reads the
nibble as `int(address_hash[i], 16)` from the hex encoding of the digest;
the nibble values are taken here directly from the digest bytes. -/
def checksumEncode (norm : PyStr) : PyStr :=
  let tail := norm.drop 2
  let nibbles := (keccak256 tail).flatMap (fun b => [b / 16, b % 16])
  48 :: 120 :: List.zipWith (fun c h => if h > 7 then pyUpperByte c else c) tail nibbles

/-- The `eth_utils.to_checksum_address` routine. -/
def to_checksum_address (s : PyStr) : Except PyErr PyStr :=
  match to_normalized_address s with
  | .ok norm => .ok (checksumEncode norm)
  | .error e => .error e

/-- The `eth_utils.is_checksum_address` predicate: a hex address that equals
its own checksum encoding. -/
def is_checksum_address (s : PyStr) : Bool :=
  is_hex_address s &&
    (match to_checksum_address s with
     | .ok t => t == s
     | .error _ => false)

/-- `Component.to_checksum` (component.py lines 43-52): return the address
unchanged when it is already checksum-cased, else force the checksum form. -/
def to_checksum (address : PyStr) : Except PyErr PyStr :=
  if is_checksum_address address then .ok address
  else to_checksum_address address

/-! ### Configuration (component.py lines 16-26)

The configuration is a flat JSON object; the component only ever compares its
values for equality and Python truthiness, so the scalar JSON values suffice:
null, bool, int, string. A `Config` maps a key to its value, `Option.none`
meaning the key is absent from the mapping. -/

/-- A scalar configuration value as Python sees it. -/
inductive PVal where
  /-- Python `None` (JSON null), also the result of `dict.get` on a missing key. -/
  | pynone
  | bool (b : Bool)
  | int (n : Int)
  | str (s : PyStr)
deriving DecidableEq, Repr

/-- Python truthiness of a scalar value (`if params.get(...)`). -/
def truthy : PVal → Bool
  | .pynone => false
  | .bool b => b
  | .int n => n ≠ 0
  | .str s => s ≠ []

/-- The external configuration mapping. -/
def Config := String → Option PVal

/-- Python `params.get(key)`: the value, or `None` when the key is absent. -/
def pyGet (params : Config) (key : String) : PVal := (params key).getD .pynone

def KEY_ADDRESS : String := "address"
def KEY_START_BLOCK : String := "start_block"
def KEY_END_BLOCK : String := "end_block"
def KEY_PAGE : String := "page"
def KEY_OFFSET : String := "offset"
def KEY_SORT : String := "sort"
def KEY_API_KEY : String := "#api_key"

/-- Mandatory configuration parameters (component.py line 26). -/
def REQUIRED_PARAMETERS : List String := [KEY_ADDRESS, KEY_API_KEY]

/-- The keboola base-class validation called at component.py line 102: it
raises `UserException` naming the missing fields when a mandatory parameter is
not present in the configuration, and does nothing otherwise. -/
def validate_configuration_parameters (params : Config) : Except PyErr Unit :=
  if REQUIRED_PARAMETERS.all (fun k => (params k).isSome) then .ok ()
  else .error (.userException "missing mandatory configuration parameters")

/-! ### The Transaction Fetcher (component.py lines 54-95) -/

/-- The argument set passed to `etherscan.Client(...).get_transactions_by_address`
at component.py lines 88-95: this is the complete request the component issues. -/
structure Request where
  address : PyStr
  api_key : PVal
  start_block : PVal
  end_block : PVal
  page : PVal
  offset : PVal
  sort : PVal
deriving DecidableEq, Repr

/-- Parameter resolution of `Component.get_transactions` (component.py lines
54-95): checksum the address, apply truthiness-gated defaults to the optional
parameters, and build the arguments of the single remote call. `params.get` of
a missing or non-string address is passed to `eth_utils`, which raises a
non-user exception (`TypeError`) on a non-string. -/
def get_transactions_request (params : Config) : Except PyErr Request :=
  match pyGet params KEY_ADDRESS with
  | .str a =>
    match to_checksum a with
    | .error e => .error e
    | .ok address =>
      let api_key := pyGet params KEY_API_KEY
      let start_block := if truthy (pyGet params KEY_START_BLOCK)
        then pyGet params KEY_START_BLOCK else .int 0
      let end_block := if truthy (pyGet params KEY_END_BLOCK)
        then pyGet params KEY_END_BLOCK else .int 99999999
      let page := if truthy (pyGet params KEY_PAGE)
        then pyGet params KEY_PAGE else .int 1
      let offset := if truthy (pyGet params KEY_OFFSET)
        then pyGet params KEY_OFFSET else .int 100
      let sort := if truthy (pyGet params KEY_SORT) ∧
          (pyGet params KEY_SORT = .str (strBytes "asc") ∨
           pyGet params KEY_SORT = .str (strBytes "desc"))
        then pyGet params KEY_SORT else .str (strBytes "asc")
      .ok ⟨address, api_key, start_block, end_block, page, offset, sort⟩
  | _ => .error (.error "TypeError: expected a string address")

/-! ### The Output Stage (component.py lines 104-124)

A transaction record is an ordered mapping of field name to value; values are
modelled as the strings the CSV module renders. `csv.DictWriter` is used with
its default dialect (comma delimiter, minimal quoting, CRLF line terminator)
and default `extrasaction='raise'` and `restval=''`. The CSV file is modelled
as its list of lines, each line without its CRLF terminator. -/

/-- A transaction record: field names with their values, in iteration order. -/
abbrev TxRecord := List (PyStr × PyStr)

/-- Python `rowdict.get(key, restval)` with `restval = ''`. -/
def rowGet (r : TxRecord) (key : PyStr) : PyStr :=
  match r.find? (fun p => p.1 == key) with
  | some p => p.2
  | none => []

/-- Whether minimal quoting must quote a field: it contains the delimiter, the
quote char, or a character of the CRLF line terminator. -/
def needsQuoting (f : PyStr) : Bool :=
  f.any (fun c => c = 44 || c = 34 || c = 13 || c = 10)

/-- Minimal quoting of one field: wrap in double quotes with inner quotes
doubled when quoting is required, else leave the field as is. -/
def quoteField (f : PyStr) : PyStr :=
  if needsQuoting f then
    34 :: (f.flatMap (fun c => if c = 34 then [34, 34] else [c]) ++ [34])
  else f

/-- One CSV line from a list of field values, per the CPython `csv` writer:
fields are minimally quoted and comma-joined; a record of exactly one empty
field is written as a quoted empty field (to stay distinct from a blank line);
a record of zero fields is written as a blank line. -/
def csvLine (row : List PyStr) : PyStr :=
  match row with
  | [f] => if f = [] then [34, 34] else quoteField f
  | _ => List.intercalate [44] (row.map quoteField)

/-- The `DictWriter._dict_to_list` projection of a record onto the header:
raises `ValueError` when the record has a key outside the header
(`extrasaction='raise'`), else maps the header to the record's values with
missing fields rendered as the empty string. -/
def dictToList (fieldnames : List PyStr) (r : TxRecord) : Except PyErr (List PyStr) :=
  if (r.map Prod.fst).all (fun k => fieldnames.contains k) then
    .ok (fieldnames.map (fun k => rowGet r k))
  else .error (.valueError "dict contains fields not in fieldnames")

/-- The `writer.writerows(transactions)` loop: write rows in order until the
first failing record; returns the lines written and the exception, if any. -/
def writeRows (fieldnames : List PyStr) : List TxRecord → List PyStr × Option PyErr
  | [] => ([], none)
  | r :: rs =>
    match dictToList fieldnames r with
    | .error e => ([], some e)
    | .ok row =>
      let rest := writeRows fieldnames rs
      (csvLine row :: rest.1, rest.2)

/-- The whole CSV write of component.py lines 115-121: the header is the first
record's key list (empty when there are no records), written by `writeheader`,
then one line per record. Returns the lines of the file and the exception that
interrupted the write, if any. -/
def writeCsv (transactions : List TxRecord) : List PyStr × Option PyErr :=
  let fieldnames := match transactions with
    | [] => []
    | r :: _ => r.map Prod.fst
  let rest := writeRows fieldnames transactions
  (csvLine fieldnames :: rest.1, rest.2)

/-! ### run and the entrypoint (component.py lines 97-140) -/

/-- The out-table definition of component.py line 105 and the manifest written
from it at line 124. -/
structure Manifest where
  filename : PyStr
  incremental : Bool
  primary_key : List PyStr
deriving DecidableEq, Repr

/-- The manifest the component always declares: `output.csv`, incremental
load, primary key on the timestamp column. -/
def outputManifest : Manifest := ⟨strBytes "output.csv", true, [strBytes "timestamp"]⟩

/-- The observable outcome of a successful run: the CSV file's lines and the
manifest written after the file is flushed. -/
structure RunOutput where
  lines : List PyStr
  manifest : Manifest
deriving DecidableEq, Repr

/-- `Component.run` (component.py lines 97-124), parameterised by the remote
endpoint: `fetch` maps the issued request to the records the decoded response
yields, or to the exception the network layer raises. The manifest is written
only when the CSV write completes without an exception. -/
def run (params : Config) (fetch : Request → Except PyErr (List TxRecord)) :
    Except PyErr RunOutput :=
  match validate_configuration_parameters params with
  | .error e => .error e
  | .ok _ =>
    match get_transactions_request params with
    | .error e => .error e
    | .ok req =>
      match fetch req with
      | .error e => .error e
      | .ok transactions =>
        let written := writeCsv transactions
        match written.2 with
        | some e => .error e
        | none => .ok ⟨written.1, outputManifest⟩

/-- The `__main__` guard (component.py lines 130-140): exit code 0 when
`run` completes, 1 for a `UserException`, 2 for any other exception; the
Bool records whether `logging.exception` ran before exiting. -/
def entrypointExit (outcome : Except PyErr RunOutput) : Nat × Bool :=
  match outcome with
  | .ok _ => (0, false)
  | .error (.userException _) => (1, true)
  | .error _ => (2, true)

/-! ### Concrete fixtures used to instantiate the theorems -/

deriving instance DecidableEq for Except

/-- The EIP-55 reference vector used as the fixture account address. -/
def fixtureAddress : PyStr := strBytes "0xfB6916095ca1df60bB79Ce92cE3Ea74c37c5d359"

/-- A configuration holding exactly the two required parameters. -/
def fixtureConfig : Config := fun k =>
  if k = "address" then some (.str fixtureAddress)
  else if k = "#api_key" then some (.str (strBytes "XYZ")) else Option.none

/-- The request the component issues under `fixtureConfig`: the checksummed
address, the api key and all documented defaults. -/
def fixtureRequest : Request :=
  ⟨fixtureAddress, .str (strBytes "XYZ"), .int 0, .int 99999999, .int 1, .int 100,
    .str (strBytes "asc")⟩

/-- A configuration with no keys at all. -/
def emptyConfig : Config := fun _ => Option.none

/-- A configuration whose address value is not a string. -/
def badAddressConfig : Config := fun k =>
  if k = "address" then some (.int 5)
  else if k = "#api_key" then some (.str (strBytes "XYZ")) else Option.none

/-- A remote endpoint returning an empty result set for every request. -/
def fetchEmpty : Request → Except PyErr (List TxRecord) := fun _ => .ok []

/-- The fixture configuration with an explicit descending sort order. -/
def descConfig : Config := fun k =>
  if k = "sort" then some (.str (strBytes "desc")) else fixtureConfig k

/-- The fixture configuration with an unrecognized sort value. -/
def fooConfig : Config := fun k =>
  if k = "sort" then some (.str (strBytes "foo")) else fixtureConfig k

/-- A configuration whose address is a string but not a well-formed hex
address. -/
def zzConfig : Config := fun k =>
  if k = "address" then some (.str (strBytes "0xZZ"))
  else if k = "#api_key" then some (.str (strBytes "XYZ")) else Option.none

/-! ### Lemmas about the Output Stage -/

/-- Evaluation of `dictToList` on a record whose keys all lie in the header. -/
lemma dictToList_ok (fns : List PyStr) (r : TxRecord)
    (h : ((r.map Prod.fst).all (fun k => fns.contains k)) = true) :
    dictToList fns r = .ok (fns.map (fun k => rowGet r k)) := by
  unfold dictToList
  rw [if_pos h]

/-- Evaluation of `dictToList` on a record with a key outside the header. -/
lemma dictToList_err (fns : List PyStr) (r : TxRecord)
    (h : ((r.map Prod.fst).all (fun k => fns.contains k)) = false) :
    dictToList fns r = .error (.valueError "dict contains fields not in fieldnames") := by
  unfold dictToList
  rw [if_neg (by rw [h]; exact Bool.false_ne_true)]

/-- When every record's keys lie inside the header, the row loop writes one
line per record, in order, with the record's values mapped into header order. -/
lemma writeRows_ok (fns : List PyStr) (rs : List TxRecord)
    (h : ∀ t ∈ rs, ((t.map Prod.fst).all (fun k => fns.contains k)) = true) :
    writeRows fns rs = (rs.map (fun t => csvLine (fns.map (rowGet t))), none) := by
  induction rs with
  | nil => rfl
  | cons r rs ih =>
    have hr := dictToList_ok fns r (h r (List.mem_cons_self _ _))
    have ih2 := ih (fun t ht => h t (List.mem_cons_of_mem _ ht))
    simp [writeRows, hr, ih2]

/-- When some record has a key outside the header, the row loop stops at the
first such record with a `ValueError`. -/
lemma writeRows_err (fns : List PyStr) (rs : List TxRecord)
    (h : ∃ t ∈ rs, ((t.map Prod.fst).all (fun k => fns.contains k)) = false) :
    (writeRows fns rs).2 = some (.valueError "dict contains fields not in fieldnames") := by
  induction rs with
  | nil => simp at h
  | cons r rs ih =>
    rcases h with ⟨t, ht, hall⟩
    rcases List.mem_cons.mp ht with rfl | htl
    · simp [writeRows, dictToList_err fns t hall]
    · by_cases hr : ((r.map Prod.fst).all (fun k => fns.contains k)) = true
      · simpa [writeRows, dictToList_ok fns r hr] using ih ⟨t, htl, hall⟩
      · simp [writeRows, dictToList_err fns r (Bool.eq_false_iff.mpr hr)]

/-- Membership in a record's key list gives `contains` on that list. -/
lemma contains_of_mem_keys {l : List PyStr} {k : PyStr} (hk : k ∈ l) :
    l.contains k = true := by
  simpa [List.contains] using List.elem_eq_true_of_mem hk

/-- A header column absent from a record renders as the empty string. -/
lemma rowGet_eq_empty (t : TxRecord) (k : PyStr)
    (h : ((t.map Prod.fst).contains k) = false) : rowGet t k = [] := by
  unfold rowGet
  cases hf : t.find? (fun e => e.1 == k) with
  | none => rfl
  | some q =>
    exfalso
    have hp := List.find?_some hf
    have hmem : q ∈ t := List.mem_of_find?_eq_some hf
    have hk : k ∈ t.map Prod.fst := by
      rw [← eq_of_beq hp]
      exact List.mem_map_of_mem Prod.fst hmem
    rw [contains_of_mem_keys hk] at h
    cases h

/-! ### Claims about the Output Stage (C1, C2, C8) -/

/-- Claim C1, as stated by the spec, is false on the code: with
`csv.DictWriter`'s default `extrasaction='raise'`, a record after the first
carrying a field outside the header makes the writer raise `ValueError`
instead of dropping the field and writing the row. At the concrete input
`[{a:1}, {a:2, b:3}]` the write stops with a `ValueError` after the header
and the first row; the offending row is never written. -/
theorem claim_C1_counterexample :
    (writeCsv [[(strBytes "a", strBytes "1")],
               [(strBytes "a", strBytes "2"), (strBytes "b", strBytes "3")]]).2 ≠ none ∧
    (writeCsv [[(strBytes "a", strBytes "1")],
               [(strBytes "a", strBytes "2"), (strBytes "b", strBytes "3")]]).1 =
      [strBytes "a", strBytes "1"] := by
  decide

/-- Claim C1 amended: for every non-empty record list, when a record after the
first contains a field name that is not among the first record's keys, the
Output Stage raises `ValueError` (the run fails rather than writing that row);
fields of the header missing from a record are rendered blank. -/
theorem claim_C1_amended (r : TxRecord) (rs : List TxRecord)
    (h : ∃ t ∈ rs, ∃ k ∈ t.map Prod.fst, ((r.map Prod.fst).contains k) = false) :
    (writeCsv (r :: rs)).2 = some (.valueError "dict contains fields not in fieldnames") ∧
    (∀ t k, ((t.map Prod.fst).contains k) = false → rowGet t k = []) := by
  constructor
  · rcases h with ⟨t, ht, k, hk, hkc⟩
    have hall : ((t.map Prod.fst).all (fun k => (r.map Prod.fst).contains k)) = false := by
      apply Bool.eq_false_iff.mpr
      intro hc
      have h2 := List.all_eq_true.mp hc k hk
      simp only [hkc] at h2
      cases h2
    have hw := writeRows_err (r.map Prod.fst) (r :: rs) ⟨t, List.mem_cons_of_mem _ ht, hall⟩
    simpa [writeCsv] using hw
  · exact fun t k hc => rowGet_eq_empty t k hc

/-- Witness for claim C1 amended at the concrete input `[{a:1}, {a:2, b:3}]`. -/
theorem claim_C1_amended_witness :
    (writeCsv [[(strBytes "a", strBytes "1")],
               [(strBytes "a", strBytes "2"), (strBytes "b", strBytes "3")]]).2 =
      some (.valueError "dict contains fields not in fieldnames") ∧
    (∀ t k, ((t.map Prod.fst).contains k) = false → rowGet t k = []) :=
  claim_C1_amended [(strBytes "a", strBytes "1")]
    [[(strBytes "a", strBytes "2"), (strBytes "b", strBytes "3")]] (by decide)

/-- Claim C2, as stated, is false on one point: for the empty record list the
CSV file is not header-less and line-less; `DictWriter.writeheader` with an
empty field list still writes one blank line (just a CRLF terminator), so the
file has exactly one (empty) line. -/
theorem claim_C2_counterexample :
    (writeCsv ([] : List TxRecord)).1 = [[]] ∧
    (writeCsv ([] : List TxRecord)).1 ≠ ([] : List PyStr) := by
  decide

/-- Claim C2 amended: for the empty list of transaction records the run
succeeds without raising, the CSV file consists of exactly one blank header
line and no data rows, and the manifest (incremental load, primary key
timestamp) is still written. -/
theorem claim_C2_amended (params : Config)
    (fetch : Request → Except PyErr (List TxRecord)) (req : Request)
    (hv : validate_configuration_parameters params = .ok ())
    (hr : get_transactions_request params = .ok req)
    (hf : fetch req = .ok []) :
    run params fetch = .ok ⟨[[]], outputManifest⟩ := by
  unfold run
  simp only [hv, hr, hf]
  rfl

/-- Claim C8: N records sharing the first record's field set produce exactly
N+1 lines: the header from the first record's keys in order, then one line per
record in fetch order, each mapped into the header's column order. -/
theorem claim_C8 (r : TxRecord) (rs : List TxRecord)
    (h : ∀ t ∈ r :: rs,
      (∀ k ∈ t.map Prod.fst, ((r.map Prod.fst).contains k) = true) ∧
      (∀ k ∈ r.map Prod.fst, ((t.map Prod.fst).contains k) = true)) :
    writeCsv (r :: rs) =
      (csvLine (r.map Prod.fst) ::
        (r :: rs).map (fun t => csvLine ((r.map Prod.fst).map (rowGet t))), none) ∧
    (writeCsv (r :: rs)).1.length = (r :: rs).length + 1 := by
  have hall : ∀ t ∈ r :: rs,
      ((t.map Prod.fst).all (fun k => (r.map Prod.fst).contains k)) = true := by
    intro t ht
    exact List.all_eq_true.mpr (fun k hk => (h t ht).1 k hk)
  have hw := writeRows_ok (r.map Prod.fst) (r :: rs) hall
  refine ⟨by simp [writeCsv, hw], ?_⟩
  simp [writeCsv, hw]

/-- Witness for claim C8 at the two-record fixture of the spec's end-to-end
scenario. -/
theorem claim_C8_witness :
    writeCsv [[(strBytes "timestamp", strBytes "100"), (strBytes "hash", strBytes "0x1")],
              [(strBytes "timestamp", strBytes "200"), (strBytes "hash", strBytes "0x2")]] =
      (csvLine ([(strBytes "timestamp", strBytes "100"),
          (strBytes "hash", strBytes "0x1")].map Prod.fst) ::
        [[(strBytes "timestamp", strBytes "100"), (strBytes "hash", strBytes "0x1")],
         [(strBytes "timestamp", strBytes "200"), (strBytes "hash", strBytes "0x2")]].map
          (fun t => csvLine (([(strBytes "timestamp", strBytes "100"),
            (strBytes "hash", strBytes "0x1")].map Prod.fst).map (rowGet t))), none) ∧
    (writeCsv [[(strBytes "timestamp", strBytes "100"), (strBytes "hash", strBytes "0x1")],
               [(strBytes "timestamp", strBytes "200"),
                (strBytes "hash", strBytes "0x2")]]).1.length =
      ([[(strBytes "timestamp", strBytes "100"), (strBytes "hash", strBytes "0x1")],
        [(strBytes "timestamp", strBytes "200"),
         (strBytes "hash", strBytes "0x2")]] : List TxRecord).length + 1 :=
  claim_C8 [(strBytes "timestamp", strBytes "100"), (strBytes "hash", strBytes "0x1")]
    [[(strBytes "timestamp", strBytes "200"), (strBytes "hash", strBytes "0x2")]] (by decide)

/-! ### Claims about the Transaction Fetcher (C3, C4, C5) -/

/-- Claim C3: a numeric optional key present with a falsy value (0, empty
string, null, false) makes `get_transactions` behave exactly as if the key
were absent, so the documented default is used in the request. -/
theorem claim_C3 (params : Config) (k : String) (v : PVal)
    (hk : k ∈ [KEY_START_BLOCK, KEY_END_BLOCK, KEY_PAGE, KEY_OFFSET])
    (hv : truthy v = false) :
    get_transactions_request (fun k2 => if k2 = k then some v else params k2) =
    get_transactions_request (fun k2 => if k2 = k then Option.none else params k2) := by
  have hp : ∀ key : String, pyGet (fun k2 => if k2 = k then some v else params k2) key
      = if key = k then v else pyGet params key := by
    intro key
    by_cases h : key = k <;> simp [pyGet, h]
  have hp2 : ∀ key : String, pyGet (fun k2 => if k2 = k then Option.none else params k2) key
      = if key = k then .pynone else pyGet params key := by
    intro key
    by_cases h : key = k <;> simp [pyGet, h]
  simp only [List.mem_cons, List.not_mem_nil, or_false] at hk
  rcases hk with rfl | rfl | rfl | rfl <;>
    simp +decide [get_transactions_request, hp, hp2, hv,
      (show truthy PVal.pynone = false from rfl)]

/-- Witness for claim C3: under the fixture configuration, the key `page`
set to the falsy value 0 produces the same request as the key being absent. -/
theorem claim_C3_witness :
    get_transactions_request
        (fun k2 => if k2 = KEY_PAGE then some (.int 0) else fixtureConfig k2) =
    get_transactions_request
        (fun k2 => if k2 = KEY_PAGE then Option.none else fixtureConfig k2) :=
  claim_C3 fixtureConfig KEY_PAGE (.int 0) (by decide) rfl

/-- Claim C4: a configured sort of `desc` is passed to the remote call
unchanged; a configured sort that is neither `asc` nor `desc` falls back to
the default `asc`. -/
theorem claim_C4 (params : Config) (a ca : PyStr)
    (ha : params KEY_ADDRESS = some (.str a))
    (hca : to_checksum a = .ok ca) :
    ((pyGet params KEY_SORT = .str (strBytes "desc")) →
      ∃ req, get_transactions_request params = .ok req ∧
        req.sort = .str (strBytes "desc")) ∧
    ((pyGet params KEY_SORT ≠ .str (strBytes "asc")) →
      (pyGet params KEY_SORT ≠ .str (strBytes "desc")) →
      ∃ req, get_transactions_request params = .ok req ∧
        req.sort = .str (strBytes "asc")) := by
  have hga : pyGet params KEY_ADDRESS = .str a := by simp [pyGet, ha]
  unfold get_transactions_request
  simp only [hga, hca]
  constructor
  · intro hs
    refine ⟨_, rfl, ?_⟩
    show (if truthy (pyGet params KEY_SORT) ∧ _ then pyGet params KEY_SORT else _) = _
    rw [hs]
    decide
  · intro h1 h2
    refine ⟨_, rfl, ?_⟩
    show (if truthy (pyGet params KEY_SORT) ∧ _ then pyGet params KEY_SORT else _) = _
    rw [if_neg]
    rintro ⟨-, h | h⟩
    · exact h1 h
    · exact h2 h

/-- Claim C5: with only the required keys configured, the issued request
carries exactly the documented defaults: start block 0, end block 99999999,
page 1, offset 100, sort asc. -/
theorem claim_C5 (params : Config) (a ca : PyStr)
    (ha : params KEY_ADDRESS = some (.str a))
    (hca : to_checksum a = .ok ca)
    (h1 : params KEY_START_BLOCK = Option.none)
    (h2 : params KEY_END_BLOCK = Option.none)
    (h3 : params KEY_PAGE = Option.none)
    (h4 : params KEY_OFFSET = Option.none)
    (h5 : params KEY_SORT = Option.none) :
    get_transactions_request params =
      .ok ⟨ca, pyGet params KEY_API_KEY, .int 0, .int 99999999, .int 1, .int 100,
        .str (strBytes "asc")⟩ := by
  have hga : pyGet params KEY_ADDRESS = .str a := by simp [pyGet, ha]
  unfold get_transactions_request
  simp only [hga, hca]
  simp [pyGet, h1, h2, h3, h4, h5, truthy]

/-! ### Claims about run and the entrypoint (C6, C7) -/

/-- Claim C6: a configuration missing the required address or api key makes
`run` fail with a user-facing `UserException`, whatever the remote endpoint
would have answered: the fetch step is never reached. -/
theorem claim_C6 (params : Config) (fetch : Request → Except PyErr (List TxRecord))
    (h : params KEY_ADDRESS = Option.none ∨ params KEY_API_KEY = Option.none) :
    ∃ m, run params fetch = .error (.userException m) := by
  refine ⟨"missing mandatory configuration parameters", ?_⟩
  have hv : (REQUIRED_PARAMETERS.all fun k => (params k).isSome) = false := by
    rcases h with h | h
    · simp only [KEY_ADDRESS] at h
      simp [REQUIRED_PARAMETERS, KEY_ADDRESS, KEY_API_KEY, h]
    · simp only [KEY_API_KEY] at h
      simp [REQUIRED_PARAMETERS, KEY_ADDRESS, KEY_API_KEY, h]
  unfold run validate_configuration_parameters
  rw [hv]
  simp

/-- Witness for claim C6 at the empty configuration. -/
theorem claim_C6_witness :
    ∃ m, run emptyConfig fetchEmpty = .error (.userException m) :=
  claim_C6 emptyConfig fetchEmpty (Or.inl rfl)

/-! ### Fixture evaluation lemmas

`to_checksum_fixture` is the one computational fact settled in the kernel by
`decide`: the EIP-55 reference address is checksum-cased, so `to_checksum`
returns it unchanged. Every other fixture fact follows by rewriting. -/

set_option maxRecDepth 1000000 in
lemma to_checksum_fixture : to_checksum fixtureAddress = .ok fixtureAddress := by
  decide

lemma fixture_request : get_transactions_request fixtureConfig = .ok fixtureRequest := by
  have hga : pyGet fixtureConfig KEY_ADDRESS = .str fixtureAddress := rfl
  unfold get_transactions_request
  simp only [hga, to_checksum_fixture]
  have h1 : pyGet fixtureConfig KEY_START_BLOCK = .pynone := rfl
  have h2 : pyGet fixtureConfig KEY_END_BLOCK = .pynone := rfl
  have h3 : pyGet fixtureConfig KEY_PAGE = .pynone := rfl
  have h4 : pyGet fixtureConfig KEY_OFFSET = .pynone := rfl
  have h5 : pyGet fixtureConfig KEY_SORT = .pynone := rfl
  have h6 : pyGet fixtureConfig KEY_API_KEY = .str (strBytes "XYZ") := rfl
  simp only [h1, h2, h3, h4, h5, h6]
  simp [truthy, fixtureRequest]

lemma fixture_run : run fixtureConfig fetchEmpty = .ok ⟨[[]], outputManifest⟩ := by
  have hv : validate_configuration_parameters fixtureConfig = .ok () := rfl
  unfold run
  simp only [hv, fixture_request]
  rfl

/-- Witness for claim C2 amended: the fixture configuration with an endpoint
returning no transactions yields a successful run, a one-blank-line CSV and
the manifest. -/
theorem claim_C2_amended_witness :
    run fixtureConfig fetchEmpty = .ok ⟨[[]], outputManifest⟩ :=
  claim_C2_amended fixtureConfig fetchEmpty fixtureRequest rfl fixture_request rfl

/-- Witness for claim C4: sort `desc` under the fixture passes through, and
the unrecognized sort `foo` falls back to `asc`. -/
theorem claim_C4_witness :
    (∃ req, get_transactions_request descConfig = .ok req ∧
      req.sort = .str (strBytes "desc")) ∧
    (∃ req, get_transactions_request fooConfig = .ok req ∧
      req.sort = .str (strBytes "asc")) :=
  ⟨(claim_C4 descConfig fixtureAddress fixtureAddress rfl to_checksum_fixture).1 rfl,
   (claim_C4 fooConfig fixtureAddress fixtureAddress rfl to_checksum_fixture).2
     (by decide) (by decide)⟩

/-- Witness for claim C5 at the fixture configuration. -/
theorem claim_C5_witness :
    get_transactions_request fixtureConfig =
      .ok ⟨fixtureAddress, pyGet fixtureConfig KEY_API_KEY, .int 0, .int 99999999,
        .int 1, .int 100, .str (strBytes "asc")⟩ :=
  claim_C5 fixtureConfig fixtureAddress fixtureAddress rfl to_checksum_fixture
    rfl rfl rfl rfl rfl

/-! ### Lemmas about EIP-55 checksumming (towards C7, C9 and C10) -/

/-- Keccak-256 always yields 32 bytes. -/
lemma keccak256_length (m : List Nat) : (keccak256 m).length = 32 := by
  simp [keccak256, squeeze256]

/-- The nibble expansion of a byte list has twice its length. -/
lemma length_nibbles (bs : List Nat) :
    (bs.flatMap (fun b => [b / 16, b % 16])).length = 2 * bs.length := by
  induction bs with
  | nil => rfl
  | cons b bs ih => simp [ih]; omega

/-- Lowercasing a hex digit is idempotent and lands on a lowercase hex digit. -/
lemma pyLowerByte_hex {c : Nat} (h : isHexDigitByte c = true) :
    isHexDigitByte (pyLowerByte c) = true ∧
    pyLowerByte (pyLowerByte c) = pyLowerByte c ∧
    ((48 ≤ pyLowerByte c ∧ pyLowerByte c ≤ 57) ∨
      (97 ≤ pyLowerByte c ∧ pyLowerByte c ≤ 102)) := by
  simp only [isHexDigitByte, Bool.or_eq_true, Bool.and_eq_true, decide_eq_true_eq] at h ⊢
  unfold pyLowerByte
  split_ifs <;> omega

/-- Uppercasing a lowercase hex digit stays hex and lowercases back to it. -/
lemma pyUpperByte_lower {c : Nat}
    (h : (48 ≤ c ∧ c ≤ 57) ∨ (97 ≤ c ∧ c ≤ 102)) :
    pyLowerByte (pyUpperByte c) = c ∧ isHexDigitByte (pyUpperByte c) = true ∧
    pyLowerByte c = c := by
  simp only [isHexDigitByte, Bool.or_eq_true, Bool.and_eq_true, decide_eq_true_eq]
  unfold pyUpperByte pyLowerByte
  split_ifs <;> omega

/-- Structure of a string accepted by `is_hex_address`. -/
lemma hex_address_shape {a : PyStr} (h : is_hex_address a = true) :
    ∃ c1 rest, a = 48 :: c1 :: rest ∧ (c1 = 120 ∨ c1 = 88) ∧ rest.length = 40 ∧
      ∀ c ∈ rest, isHexDigitByte c = true := by
  match a with
  | [] => simp [is_hex_address] at h
  | [c] => simp [is_hex_address] at h
  | c0 :: c1 :: rest =>
    simp only [is_hex_address, Bool.and_eq_true, Bool.or_eq_true, decide_eq_true_eq,
      List.all_eq_true] at h
    obtain ⟨⟨⟨h0, h1⟩, hlen⟩, hall⟩ := h
    exact ⟨c1, rest, by rw [h0], h1, hlen, hall⟩

/-- Introduction rule for `is_hex_address` from the structure of the string. -/
lemma is_hex_address_intro {c1 : Nat} {rest : List Nat}
    (hc1 : c1 = 120 ∨ c1 = 88) (hlen : rest.length = 40)
    (hall : ∀ c ∈ rest, isHexDigitByte c = true) :
    is_hex_address (48 :: c1 :: rest) = true := by
  simp only [is_hex_address, Bool.and_eq_true, Bool.or_eq_true, decide_eq_true_eq,
    List.all_eq_true]
  exact ⟨⟨⟨trivial, hc1⟩, hlen⟩, hall⟩

/-- Lowercasing a 0x or 0X prefixed string normalizes the prefix to 0x. -/
lemma pyLower_addr {c1 : Nat} (rest : List Nat) (hc1 : c1 = 120 ∨ c1 = 88) :
    pyLower (48 :: c1 :: rest) = 48 :: 120 :: rest.map pyLowerByte := by
  rcases hc1 with rfl | rfl <;> rfl

/-- Lowercasing a hex address yields a hex address, and is idempotent there. -/
lemma lower_hex_address {a : PyStr} (h : is_hex_address a = true) :
    is_hex_address (pyLower a) = true ∧ pyLower (pyLower a) = pyLower a := by
  obtain ⟨c1, rest, rfl, hc1, hlen, hall⟩ := hex_address_shape h
  rw [pyLower_addr rest hc1]
  have hmap : ∀ c ∈ rest.map pyLowerByte, isHexDigitByte c = true := by
    intro c hc
    obtain ⟨d, hd, rfl⟩ := List.mem_map.mp hc
    exact (pyLowerByte_hex (hall d hd)).1
  refine ⟨is_hex_address_intro (Or.inl rfl) (by simpa using hlen) hmap, ?_⟩
  have hidem : List.map (pyLowerByte ∘ pyLowerByte) rest = List.map pyLowerByte rest := by
    apply List.map_congr_left
    intro c hc
    exact (pyLowerByte_hex (hall c hc)).2.1
  rw [pyLower_addr (rest.map pyLowerByte) (Or.inl rfl), List.map_map, hidem]

/-- The checksum casing of a lowercase hex tail lowercases back to the tail
and stays hexadecimal, whatever the hash nibbles are. -/
lemma zipWith_chk_lower {l1 l2 : List Nat}
    (h : ∀ c ∈ l1, (48 ≤ c ∧ c ≤ 57) ∨ (97 ≤ c ∧ c ≤ 102))
    (hl : l1.length ≤ l2.length) :
    (List.zipWith (fun c h2 => if h2 > 7 then pyUpperByte c else c) l1 l2).map
      pyLowerByte = l1 ∧
    (∀ c ∈ List.zipWith (fun c h2 => if h2 > 7 then pyUpperByte c else c) l1 l2,
      isHexDigitByte c = true) := by
  induction l1 generalizing l2 with
  | nil => simp
  | cons c l1 ih =>
    cases l2 with
    | nil => simp at hl
    | cons d l2 =>
      have hc := h c (List.mem_cons_self _ _)
      have ih2 := ih (fun x hx => h x (List.mem_cons_of_mem _ hx))
        (by simpa using Nat.le_of_succ_le_succ hl)
      constructor
      · simp only [List.zipWith_cons_cons, List.map_cons, ih2.1]
        congr 1
        by_cases hd : d > 7
        · rw [if_pos hd]
          exact (pyUpperByte_lower hc).1
        · rw [if_neg hd]
          exact (pyUpperByte_lower hc).2.2
      · intro x hx
        rw [List.zipWith_cons_cons] at hx
        rcases List.mem_cons.mp hx with rfl | hx2
        · by_cases hd : d > 7
          · rw [if_pos hd]
            exact (pyUpperByte_lower hc).2.1
          · rw [if_neg hd]
            simp only [isHexDigitByte, Bool.or_eq_true, Bool.and_eq_true, decide_eq_true_eq]
            omega
        · exact ih2.2 x hx2

/-- Checksum casing of a normalized address: lowercasing undoes it, and the
result is again a hex address. -/
lemma checksumEncode_norm {lrest : List Nat}
    (hlen : lrest.length = 40)
    (h : ∀ c ∈ lrest, (48 ≤ c ∧ c ≤ 57) ∨ (97 ≤ c ∧ c ≤ 102)) :
    pyLower (checksumEncode (48 :: 120 :: lrest)) = 48 :: 120 :: lrest ∧
    is_hex_address (checksumEncode (48 :: 120 :: lrest)) = true := by
  have hnib : ((keccak256 lrest).flatMap (fun b => [b / 16, b % 16])).length = 64 := by
    rw [length_nibbles, keccak256_length]
  have hz := @zipWith_chk_lower lrest ((keccak256 lrest).flatMap (fun b => [b / 16, b % 16]))
    h (by rw [hlen, hnib]; omega)
  have henc : checksumEncode (48 :: 120 :: lrest) =
      48 :: 120 :: List.zipWith (fun c h2 => if h2 > 7 then pyUpperByte c else c) lrest
        ((keccak256 lrest).flatMap (fun b => [b / 16, b % 16])) := by
    simp [checksumEncode]
  rw [henc]
  constructor
  · rw [pyLower_addr _ (Or.inl rfl), hz.1]
  · apply is_hex_address_intro (Or.inl rfl)
    · rw [List.length_zipWith, hlen, hnib]
      omega
    · exact hz.2

/-- Evaluation of `to_normalized_address` on a string whose lowercase form is
a hex address. -/
lemma to_normalized_ok {a : PyStr} (h : is_hex_address (pyLower a) = true) :
    to_normalized_address a = .ok (pyLower a) := by
  unfold to_normalized_address
  rw [if_pos h]

/-- `to_checksum_address` of a hex address is the checksum casing of its
lowercase form. -/
lemma to_checksum_address_ok {a : PyStr} (h : is_hex_address a = true) :
    to_checksum_address a = .ok (checksumEncode (pyLower a)) := by
  unfold to_checksum_address
  rw [to_normalized_ok (lower_hex_address h).1]

/-- Characterization of `is_checksum_address`. -/
lemma is_checksum_address_iff (a : PyStr) :
    is_checksum_address a = true ↔
      (is_hex_address a = true ∧ to_checksum_address a = .ok a) := by
  unfold is_checksum_address
  cases hm : to_checksum_address a with
  | ok t => simp [Bool.and_eq_true, beq_iff_eq]
  | error e => simp

/-- The facts about the checksum casing of the lowercase form of an address. -/
lemma checksum_norm_facts {a : PyStr} (h : is_hex_address a = true) :
    pyLower (checksumEncode (pyLower a)) = pyLower a ∧
    is_hex_address (checksumEncode (pyLower a)) = true := by
  obtain ⟨c1, rest, rfl, hc1, hlen, hall⟩ := hex_address_shape h
  rw [pyLower_addr rest hc1]
  have hlow : ∀ c ∈ rest.map pyLowerByte, (48 ≤ c ∧ c ≤ 57) ∨ (97 ≤ c ∧ c ≤ 102) := by
    intro c hc
    obtain ⟨d, hd, rfl⟩ := List.mem_map.mp hc
    exact (pyLowerByte_hex (hall d hd)).2.2
  exact checksumEncode_norm (by simpa using hlen) hlow

/-- The checksum casing of an address is a fixed point of `to_checksum_address`. -/
lemma to_checksum_address_fix {a : PyStr} (h : is_hex_address a = true) :
    to_checksum_address (checksumEncode (pyLower a)) = .ok (checksumEncode (pyLower a)) := by
  have hf := checksum_norm_facts h
  have h2 := to_checksum_address_ok hf.2
  rw [hf.1] at h2
  exact h2

/-- The checksum casing of an address satisfies `is_checksum_address`. -/
lemma is_checksum_encode {a : PyStr} (h : is_hex_address a = true) :
    is_checksum_address (checksumEncode (pyLower a)) = true :=
  (is_checksum_address_iff _).mpr ⟨(checksum_norm_facts h).2, to_checksum_address_fix h⟩

/-- `Component.to_checksum` of a hex address always returns the checksum
casing of its lowercase form, through either branch. -/
lemma to_checksum_eq {a : PyStr} (h : is_hex_address a = true) :
    to_checksum a = .ok (checksumEncode (pyLower a)) := by
  unfold to_checksum
  by_cases hc : is_checksum_address a = true
  · rw [if_pos hc]
    have h2 := ((is_checksum_address_iff a).mp hc).2
    rw [to_checksum_address_ok h] at h2
    exact h2.symm
  · rw [if_neg hc]
    exact to_checksum_address_ok h

/-! ### Claim C7: the entrypoint's exit codes -/

/-- Claim C7, as stated, is false on one point: an invalid address surfaced
from the checksum step is not a `UserException` — `eth_utils` raises a plain
`ValueError` — so that failure exits with code 2, not 1. Concretely, the
configuration with address `0xZZ` and an api key makes the run raise
`ValueError` and the process exits with code 2. -/
theorem claim_C7_counterexample :
    run zzConfig fetchEmpty =
      .error (.valueError "Unknown format, expected a hex address") ∧
    entrypointExit (run zzConfig fetchEmpty) ≠ (1, true) ∧
    entrypointExit (run zzConfig fetchEmpty) = (2, true) := by
  decide

/-- Claim C7 amended: exit code 0 when run completes without an exception;
exit code 1, after logging, exactly when run raises `UserException` (missing
configuration); exit code 2, after logging, for every other exception — which
includes the `ValueError` the checksum step raises for an invalid address, as
well as network, endpoint and filesystem failures. -/
theorem claim_C7_amended (params : Config)
    (fetch : Request → Except PyErr (List TxRecord)) :
    (∀ out, run params fetch = .ok out →
      entrypointExit (run params fetch) = (0, false)) ∧
    (∀ m, run params fetch = .error (.userException m) →
      entrypointExit (run params fetch) = (1, true)) ∧
    (∀ e, run params fetch = .error e → (∀ m, e ≠ .userException m) →
      entrypointExit (run params fetch) = (2, true)) ∧
    (∀ a, pyGet params KEY_ADDRESS = .str a → is_hex_address (pyLower a) = false →
      validate_configuration_parameters params = .ok () →
      run params fetch = .error (.valueError "Unknown format, expected a hex address") ∧
      entrypointExit (run params fetch) = (2, true)) := by
  refine ⟨fun out h => by rw [h]; rfl, fun m h => by rw [h]; rfl,
    fun e h hne => ?_, fun a hpa hlow hval => ?_⟩
  · rw [h]
    cases e with
    | userException m => exact absurd rfl (hne m)
    | valueError m => rfl
    | error m => rfl
  · have hhexa : is_hex_address a = false := by
      by_cases hx : is_hex_address a = true
      · exfalso
        have h2 := (lower_hex_address hx).1
        rw [hlow] at h2
        cases h2
      · exact Bool.eq_false_iff.mpr hx
    have hcs : is_checksum_address a = false := by
      by_cases hc : is_checksum_address a = true
      · exfalso
        have h2 := ((is_checksum_address_iff a).mp hc).1
        rw [hhexa] at h2
        cases h2
      · exact Bool.eq_false_iff.mpr hc
    have hn : to_normalized_address a =
        .error (.valueError "Unknown format, expected a hex address") := by
      unfold to_normalized_address
      rw [if_neg (by rw [hlow]; exact Bool.false_ne_true)]
    have htc : to_checksum a =
        .error (.valueError "Unknown format, expected a hex address") := by
      unfold to_checksum
      rw [if_neg (by rw [hcs]; exact Bool.false_ne_true)]
      unfold to_checksum_address
      rw [hn]
    have hreq : get_transactions_request params =
        .error (.valueError "Unknown format, expected a hex address") := by
      unfold get_transactions_request
      simp only [hpa, htc]
    have hrun : run params fetch =
        .error (.valueError "Unknown format, expected a hex address") := by
      unfold run
      simp only [hval, hreq]
    exact ⟨hrun, by rw [hrun]; rfl⟩

/-- Witness for claim C7 amended: the exit paths at four concrete runs — a
successful fixture run (0), missing configuration (1), a non-string address
raising `TypeError` (2), and a malformed hex address raising `ValueError`
from the checksum step (2). -/
theorem claim_C7_amended_witness :
    entrypointExit (run fixtureConfig fetchEmpty) = (0, false) ∧
    entrypointExit (run emptyConfig fetchEmpty) = (1, true) ∧
    entrypointExit (run badAddressConfig fetchEmpty) = (2, true) ∧
    (run zzConfig fetchEmpty =
        .error (.valueError "Unknown format, expected a hex address") ∧
      entrypointExit (run zzConfig fetchEmpty) = (2, true)) :=
  ⟨(claim_C7_amended fixtureConfig fetchEmpty).1 ⟨[[]], outputManifest⟩ fixture_run,
   (claim_C7_amended emptyConfig fetchEmpty).2.1
     "missing mandatory configuration parameters" rfl,
   (claim_C7_amended badAddressConfig fetchEmpty).2.2.1
     (.error "TypeError: expected a string address") rfl (fun _ h => PyErr.noConfusion h),
   (claim_C7_amended zzConfig fetchEmpty).2.2.2 (strBytes "0xZZ") rfl (by decide) rfl⟩

/-! ### Claims about the Address Normalizer (C9, C10) -/

/-- Claim C9: for every syntactically valid hex address, `to_checksum`
returns the canonical checksum-case form of the address — the checksum casing
of its lowercase form — which is itself checksum-valid; the result does not
depend on the input's casing, the checksum-valid representative of an address
is unique, and an already checksum-cased input is returned string-identical. -/
theorem claim_C9 (a : PyStr) (h : is_hex_address a = true) :
    to_checksum a = .ok (checksumEncode (pyLower a)) ∧
    is_checksum_address (checksumEncode (pyLower a)) = true ∧
    (∀ b, is_hex_address b = true → pyLower b = pyLower a →
      to_checksum b = to_checksum a ∧
      (is_checksum_address b = true → b = checksumEncode (pyLower a))) ∧
    (is_checksum_address a = true → to_checksum a = .ok a) := by
  refine ⟨to_checksum_eq h, is_checksum_encode h, ?_, ?_⟩
  · intro b hb hlow
    constructor
    · rw [to_checksum_eq hb, to_checksum_eq h, hlow]
    · intro hcb
      have h2 := ((is_checksum_address_iff b).mp hcb).2
      rw [to_checksum_address_ok hb, hlow] at h2
      exact (Except.ok.inj h2).symm
  · intro hca
    unfold to_checksum
    rw [if_pos hca]

/-- Witness for claim C9 at the EIP-55 reference address. -/
theorem claim_C9_witness :
    to_checksum fixtureAddress = .ok (checksumEncode (pyLower fixtureAddress)) ∧
    is_checksum_address (checksumEncode (pyLower fixtureAddress)) = true ∧
    (∀ b, is_hex_address b = true → pyLower b = pyLower fixtureAddress →
      to_checksum b = to_checksum fixtureAddress ∧
      (is_checksum_address b = true → b = checksumEncode (pyLower fixtureAddress))) ∧
    (is_checksum_address fixtureAddress = true →
      to_checksum fixtureAddress = .ok fixtureAddress) :=
  claim_C9 fixtureAddress (by decide)

/-- Claim C10: on every valid address the normalization is idempotent:
feeding the checksummed address back through `to_checksum` returns it
unchanged, so checksumming twice equals checksumming once. -/
theorem claim_C10 (a : PyStr) (h : is_hex_address a = true) :
    (to_checksum a).bind to_checksum = to_checksum a := by
  rw [to_checksum_eq h]
  show to_checksum (checksumEncode (pyLower a)) = _
  unfold to_checksum
  rw [if_pos (is_checksum_encode h)]

/-- Witness for claim C10 at the EIP-55 reference address. -/
theorem claim_C10_witness :
    (to_checksum fixtureAddress).bind to_checksum = to_checksum fixtureAddress :=
  claim_C10 fixtureAddress (by decide)
